import Mathlib

/-!
Verification of the RTSTRUCT → STL extraction pipeline of SmartBolus
(`src/stl.py` and `src/stlComInterface.py`).

The two Python files share a core pipeline:
`extract_structure_mask` reads the CT slices of a folder, sorts them by the
through-plane coordinate `ImagePositionPatient[2]`, derives the pixel spacing
and the inter-slice thickness, resolves the requested ROI name
case-insensitively in the RTSTRUCT, rasterizes every contour of that ROI into
a binary volumetric mask, and `mask_to_stl` runs marching cubes at level 0.5
with anisotropic spacing and recenters the resulting mesh on its centroid.

The embedding below models DICOM scalars with `ℚ` (the source uses floats; no
claim here depends on rounding), Python exceptions with `Except`, and the
3-D mask with a boolean-valued function.  External library calls that are not
part of the repository (matplotlib's point-in-polygon test, skimage's
marching-cubes level check, trimesh's centroid translation) are modelled from
the specification's description of them; each such definition carries a
`Modelled from the spec:` doc string.
-/

namespace SmartBolus

/-- A 3-D point in patient coordinates (one `ContourData` triple, or an
`ImagePositionPatient` attribute). -/
structure Point3 where
  x : ℚ
  y : ℚ
  z : ℚ
deriving DecidableEq

/-- The per-slice DICOM attributes read by `extract_structure_mask`:
`ImagePositionPatient` (the in-plane origin and the through-plane position),
`PixelSpacing` (the DICOM pair: first component the row spacing, second
component the column spacing), `Rows` and `Columns`. -/
structure ImageSlice where
  ImagePositionPatient : Point3
  PixelSpacing : ℚ × ℚ
  Rows : Nat
  Columns : Nat
deriving DecidableEq

/-- One element of `StructureSetROISequence`: an ROI name with its number. -/
structure ROI where
  ROIName : String
  ROINumber : Nat
deriving DecidableEq

/-- One element of a `ContourSequence`: its `ContourData`, already reshaped
into 3-D points (the `np.array(contour.ContourData).reshape(-1, 3)` of the
source). -/
structure Contour where
  ContourData : List Point3
deriving DecidableEq

/-- One element of `ROIContourSequence`: the referenced ROI number and the
contours. -/
structure ROIContour where
  ReferencedROINumber : Nat
  ContourSequence : List Contour
deriving DecidableEq

/-- The parts of a loaded RTSTRUCT dataset that the pipeline reads. -/
structure RTStruct where
  StructureSetROISequence : List ROI
  ROIContourSequence : List ROIContour
deriving DecidableEq

/-- The Python exceptions the embedded pipeline can raise: `IndexError`
(out-of-range list or array access; the spec calls the two occurrences on
under-populated slice folders `InsufficientDataError`), the `ValueError`
raised for an unresolved structure name (the spec's
`StructureNotFoundError`), and the `ValueError` raised by
`skimage.measure.marching_cubes` when the level is outside the data range
(the spec's `EmptyVolumeError`). -/
inductive PyError where
  | indexError : PyError
  | structureNotFound : String → PyError
  | valueError : PyError
deriving DecidableEq

/-- A volumetric binary mask, indexed (slice, row, column); cells outside the
allocated grid read as `false`. -/
abbrev Mask3 : Type := Nat → Nat → Nat → Bool

/-- The triple returned by `extract_structure_mask`. -/
structure ExtractResult where
  mask : Mask3
  pixel_spacing : ℚ × ℚ
  slice_thickness : ℚ

/-- `get_structure_names`: the ROI names listed in the RTSTRUCT
(identical in both source files). -/
def get_structure_names (rtstruct : RTStruct) : List String :=
  rtstruct.StructureSetROISequence.map ROI.ROIName

/-- Python's `str.lower()` on the character data of a string (ASCII case
folding), used for the case-insensitive ROI name comparison. -/
def strLower (s : String) : List Char :=
  s.data.map Char.toLower

/-- The ordering key of `slices.sort(key=lambda s: s.ImagePositionPatient[2])`. -/
def sliceLE (a b : ImageSlice) : Prop :=
  a.ImagePositionPatient.z ≤ b.ImagePositionPatient.z

instance : DecidableRel sliceLE :=
  fun a b => inferInstanceAs (Decidable (a.ImagePositionPatient.z ≤ b.ImagePositionPatient.z))

instance : IsTotal ImageSlice sliceLE :=
  ⟨fun a b => le_total a.ImagePositionPatient.z b.ImagePositionPatient.z⟩

instance : IsTrans ImageSlice sliceLE :=
  ⟨fun _ _ _ h1 h2 => le_trans h1 h2⟩

/-- `slices.sort(key=lambda s: s.ImagePositionPatient[2])`: Python's `sort`
is a stable sort by the key, modelled by a stable insertion sort. -/
def sortSlices (slices : List ImageSlice) : List ImageSlice :=
  List.insertionSort sliceLE slices

/-- `z_positions = np.array([s.ImagePositionPatient[2] for s in slices])`
after the in-place sort. -/
def zPositions (slices : List ImageSlice) : List ℚ :=
  (sortSlices slices).map fun s => s.ImagePositionPatient.z

/-- `np.argmin(np.abs(z_positions - z))`: the first index of a list whose
entry is nearest to `z` in absolute distance (`0` on the empty list, where
numpy would raise instead; the pipeline only calls it on a non-empty list). -/
def argminAbs (z : ℚ) : List ℚ → Nat
  | [] => 0
  | [_] => 0
  | p :: q :: rest =>
    if |p - z| ≤ |(q :: rest).getD (argminAbs z (q :: rest)) 0 - z| then 0
    else argminAbs z (q :: rest) + 1

/-- `col_coords = (pts[:, 0] - slices[0].ImagePositionPatient[0]) / pixel_spacing[0]`
applied to one point. -/
def col_coords (s0 : ImageSlice) (p : Point3) : ℚ :=
  (p.x - s0.ImagePositionPatient.x) / s0.PixelSpacing.1

/-- `row_coords = (pts[:, 1] - slices[0].ImagePositionPatient[1]) / pixel_spacing[1]`
applied to one point. -/
def row_coords (s0 : ImageSlice) (p : Point3) : ℚ :=
  (p.y - s0.ImagePositionPatient.y) / s0.PixelSpacing.2

/-- Modelled from the spec: the transform the specification prescribes,
`col = (x - origin_x) / spacing_x` with `spacing_x` the COLUMN pixel spacing,
which in the DICOM `PixelSpacing` pair (row spacing first) is the second
component.  Stated only to compare with the source's `col_coords`. -/
def spec_col_coords (s0 : ImageSlice) (p : Point3) : ℚ :=
  (p.x - s0.ImagePositionPatient.x) / s0.PixelSpacing.2

/-- Modelled from the spec: `row = (y - origin_y) / spacing_y` with
`spacing_y` the ROW pixel spacing, the first `PixelSpacing` component.
Stated only to compare with the source's `row_coords`. -/
def spec_row_coords (s0 : ImageSlice) (p : Point3) : ℚ :=
  (p.y - s0.ImagePositionPatient.y) / s0.PixelSpacing.1

/-- The polygon handed to `Path(np.vstack((col_coords, row_coords)).T)`:
each contour point as continuous (column, row) index coordinates. -/
def contourPolygon (s0 : ImageSlice) (contour : Contour) : List (ℚ × ℚ) :=
  contour.ContourData.map fun p => (col_coords s0 p, row_coords s0 p)

/-- Does the horizontal ray from `q` to the right cross the edge `a`–`b`?
(Half-open in `y` so each crossing through a vertex is counted once.) -/
def crossesRay (q a b : ℚ × ℚ) : Bool :=
  (decide (a.2 > q.2) != decide (b.2 > q.2)) &&
    decide (q.1 < (b.1 - a.1) * (q.2 - a.2) / (b.2 - a.2) + a.1)

/-- The edges of a closed polygon: consecutive vertex pairs, the last vertex
joined back to the first. -/
def polygonEdges (poly : List (ℚ × ℚ)) : List ((ℚ × ℚ) × (ℚ × ℚ)) :=
  poly.zip (poly.rotate 1)

/-- Modelled from the spec: the point-in-polygon classification performed by
the external `matplotlib.path.Path.contains_points` — "a standard
point-in-polygon rule (even-odd / ray-casting semantics)": a query point is
inside iff a horizontal ray from it crosses an odd number of polygon edges. -/
def contains_point (poly : List (ℚ × ℚ)) (q : ℚ × ℚ) : Bool :=
  (polygonEdges poly).countP (fun e => crossesRay q e.1 e.2) % 2 == 1

/-- The 2-D boolean mask of one rasterized contour: the grid cell centers
`np.meshgrid(np.arange(Rows), np.arange(Columns))` classified by
`poly.contains_points` (cells outside the grid are `false`). -/
def contourMask (s0 : ImageSlice) (contour : Contour) (r c : Nat) : Bool :=
  decide (r < s0.Rows) && decide (c < s0.Columns) &&
    contains_point (contourPolygon s0 contour) ((c : ℚ), (r : ℚ))

/-- The slice index a contour is assigned to: `np.argmin(np.abs(z_positions - z))`
with `z = pts[0, 2]` (`0` for an empty contour, which the pipeline never
reaches — it raises first). -/
def assignedSlice (z_positions : List ℚ) (contour : Contour) : Nat :=
  match contour.ContourData with
  | [] => 0
  | p0 :: _ => argminAbs p0.z z_positions

/-- The contribution of one contour to the volumetric mask: `true` at
`(i, r, c)` iff `i` is the contour's assigned slice and the cell `(r, c)` is
inside the rasterized polygon. -/
def rasterCell (s0 : ImageSlice) (z_positions : List ℚ) (contour : Contour)
    (i r c : Nat) : Bool :=
  match contour.ContourData with
  | [] => false
  | p0 :: _ => decide (i = argminAbs p0.z z_positions) && contourMask s0 contour r c

/-- One iteration of the contour loop: `pts = ...reshape(-1, 3)`,
`z = pts[0, 2]` (an `IndexError` on an empty `ContourData`),
`slice_idx = np.argmin(...)`, and `mask[slice_idx][mask_slice] = 1` —
occupied cells are only ever set, never cleared. -/
def addContour (s0 : ImageSlice) (z_positions : List ℚ) (mask : Mask3)
    (contour : Contour) : Except PyError Mask3 :=
  match contour.ContourData with
  | [] => Except.error PyError.indexError
  | p0 :: _ =>
    let slice_idx := argminAbs p0.z z_positions
    Except.ok fun i r c =>
      mask i r c || (decide (i = slice_idx) && contourMask s0 contour r c)

/-- The contours of the resolved structure, in iteration order: every
`ROIContourSequence` entry whose `ReferencedROINumber` matches, each
contributing its `ContourSequence`. -/
def contoursFor (rtstruct : RTStruct) (structure_index : Nat) : List Contour :=
  (rtstruct.ROIContourSequence.filter
      fun rc => rc.ReferencedROINumber == structure_index).flatMap
    ROIContour.ContourSequence

/-- The contour loop of `extract_structure_mask`, starting from the all-zero
`np.zeros(shape, dtype=np.uint8)` mask. -/
def buildMask (rtstruct : RTStruct) (structure_index : Nat) (s0 : ImageSlice)
    (z_positions : List ℚ) : Except PyError Mask3 :=
  (contoursFor rtstruct structure_index).foldlM
    (addContour s0 z_positions) (fun _ _ _ => false)

/-- The first-match case-insensitive name resolution of the source:
iterate `StructureSetROISequence`, break on
`roi.ROIName.lower() == structure_name.lower()`, yield `roi.ROINumber`. -/
def findStructureIndex (rtstruct : RTStruct) (structure_name : String) : Option Nat :=
  (rtstruct.StructureSetROISequence.find?
      fun roi => strLower roi.ROIName == strLower structure_name).map ROI.ROINumber

/-- `extract_structure_mask` of `src/stl.py` (lines 41–96).  The slice list
stands for the `.dcm` files read from `ct_folder`.  The two `IndexError`s are
the source's `slices[0].PixelSpacing` on an empty folder and
`slices[1].ImagePositionPatient[2]` on a single slice; the slice thickness is
taken directly from the two first sorted slices. -/
def extract_structure_mask (rtstruct : RTStruct) (slices : List ImageSlice)
    (structure_name : String) : Except PyError ExtractResult :=
  let sorted := sortSlices slices
  let z_positions := zPositions slices
  match sorted with
  | [] => Except.error PyError.indexError
  | s0 :: rest =>
    let pixel_spacing := s0.PixelSpacing
    match rest with
    | [] => Except.error PyError.indexError
    | s1 :: _ =>
      let slice_thickness :=
        |s1.ImagePositionPatient.z - s0.ImagePositionPatient.z|
      match findStructureIndex rtstruct structure_name with
      | none => Except.error (PyError.structureNotFound structure_name)
      | some structure_index =>
        Except.map
          (fun mask =>
            { mask := mask, pixel_spacing := pixel_spacing,
              slice_thickness := slice_thickness })
          (buildMask rtstruct structure_index s0 z_positions)

/-- `extract_structure_mask` of `src/stlComInterface.py` (lines 51–106): the
same pipeline, except that the slice thickness is computed from the
`z_positions` array (`abs(z_positions[1] - z_positions[0])`, line 75) rather
than from the slice objects. -/
def extract_structure_mask_gui (rtstruct : RTStruct) (slices : List ImageSlice)
    (structure_name : String) : Except PyError ExtractResult :=
  let sorted := sortSlices slices
  let z_positions := zPositions slices
  match sorted with
  | [] => Except.error PyError.indexError
  | s0 :: rest =>
    let pixel_spacing := s0.PixelSpacing
    match rest with
    | [] => Except.error PyError.indexError
    | _ :: _ =>
      let slice_thickness := |z_positions.getD 1 0 - z_positions.getD 0 0|
      match findStructureIndex rtstruct structure_name with
      | none => Except.error (PyError.structureNotFound structure_name)
      | some structure_index =>
        Except.map
          (fun mask =>
            { mask := mask, pixel_spacing := pixel_spacing,
              slice_thickness := slice_thickness })
          (buildMask rtstruct structure_index s0 z_positions)

/-- The surface mesh handed around by `mask_to_stl`: vertices, triangular
faces, per-vertex normals. -/
structure Mesh where
  vertices : List Point3
  faces : List (Nat × Nat × Nat)
  vertex_normals : List Point3
deriving DecidableEq

/-- Componentwise sum of two points. -/
def Point3.add (a b : Point3) : Point3 :=
  ⟨a.x + b.x, a.y + b.y, a.z + b.z⟩

/-- Componentwise negation. -/
def Point3.neg (a : Point3) : Point3 :=
  ⟨-a.x, -a.y, -a.z⟩

/-- Componentwise difference. -/
def Point3.sub (a b : Point3) : Point3 :=
  ⟨a.x - b.x, a.y - b.y, a.z - b.z⟩

/-- Modelled from the spec: the centroid of the external mesh representation
(`trimesh.Trimesh.centroid`) — "the mesh's geometric centroid (mean of vertex
positions ...)": the componentwise mean of the vertices. -/
def centroid (mesh : Mesh) : Point3 :=
  ⟨(mesh.vertices.map Point3.x).sum / (mesh.vertices.length : ℚ),
   (mesh.vertices.map Point3.y).sum / (mesh.vertices.length : ℚ),
   (mesh.vertices.map Point3.z).sum / (mesh.vertices.length : ℚ)⟩

/-- `mesh.apply_translation(t)`: translate every vertex by `t`; faces and
vertex normals are untouched. -/
def apply_translation (mesh : Mesh) (t : Point3) : Mesh :=
  { mesh with vertices := mesh.vertices.map fun v => Point3.add v t }

/-- The result of the centroid normalization step
`mesh.apply_translation(-mesh.centroid)`. -/
def normalizeMesh (mesh : Mesh) : Mesh :=
  apply_translation mesh (Point3.neg (centroid mesh))

/-- All (slice, row, column) index triples of a mask of the given shape. -/
def cells (shape : Nat × Nat × Nat) : List (Nat × Nat × Nat) :=
  (List.range shape.1).flatMap fun i =>
    (List.range shape.2.1).flatMap fun r =>
      (List.range shape.2.2).map fun c => (i, r, c)

/-- Modelled from the spec: the level check of the external
`skimage.measure.marching_cubes` — the extraction "fails ... when the mask
contains no boundary crossing the isovalue (e.g., an all-zero or all-one
grid)".  The level 0.5 lies within the data range of a binary volume iff some
cell is occupied and some cell is empty. -/
def levelInRange (shape : Nat × Nat × Nat) (mask : Mask3) : Bool :=
  ((cells shape).map fun t => mask t.1 t.2.1 t.2.2).any (fun b => b) &&
    ((cells shape).map fun t => mask t.1 t.2.1 t.2.2).any (fun b => !b)

/-- `mask_to_stl` of `src/stl.py` (lines 99–117): marching cubes at level 0.5
with spacing `(slice_thickness, pixel_spacing[0], pixel_spacing[1])`, then
centroid normalization.  The surface geometry produced by the external
algorithm is a parameter (`marching_cubes_surface`); the embedded part is the
level-range failure and the post-processing. -/
def mask_to_stl (marching_cubes_surface : Mask3 → ℚ × ℚ × ℚ → Mesh)
    (shape : Nat × Nat × Nat) (mask : Mask3) (pixel_spacing : ℚ × ℚ)
    (slice_thickness : ℚ) : Except PyError Mesh :=
  if levelInRange shape mask then
    let mesh :=
      marching_cubes_surface mask (slice_thickness, pixel_spacing.1, pixel_spacing.2)
    Except.ok (normalizeMesh mesh)
  else Except.error PyError.valueError

/-- `mask_to_stl` of `src/stlComInterface.py` (lines 109–126): identical to
the batch variant except for console output. -/
def mask_to_stl_gui (marching_cubes_surface : Mask3 → ℚ × ℚ × ℚ → Mesh)
    (shape : Nat × Nat × Nat) (mask : Mask3) (pixel_spacing : ℚ × ℚ)
    (slice_thickness : ℚ) : Except PyError Mesh :=
  if levelInRange shape mask then
    let mesh :=
      marching_cubes_surface mask (slice_thickness, pixel_spacing.1, pixel_spacing.2)
    Except.ok (normalizeMesh mesh)
  else Except.error PyError.valueError

/-! Concrete fixtures used by counterexamples and witnesses. -/

/-- A slice at through-plane position 0, unit spacing, 4×4 grid. -/
def sW0 : ImageSlice := ⟨⟨0, 0, 0⟩, (1, 1), 4, 4⟩

/-- A slice at through-plane position 10, unit spacing, 4×4 grid. -/
def sW10 : ImageSlice := ⟨⟨0, 0, 10⟩, (1, 1), 4, 4⟩

/-- An RTSTRUCT with a single ROI and no contours. -/
def rtPlain : RTStruct := ⟨[⟨"BolusECT", 1⟩], []⟩

/-- A triangle contour on the plane z = 0. -/
def triA : Contour := ⟨[⟨0, 0, 0⟩, ⟨3, 0, 0⟩, ⟨0, 3, 0⟩]⟩

/-- A second, overlapping triangle contour on the plane z = 0. -/
def triB : Contour := ⟨[⟨2, 2, 0⟩, ⟨3, 0, 0⟩, ⟨0, 3, 0⟩]⟩

/-- An RTSTRUCT whose ROI `"a"` carries the two overlapping triangles. -/
def rtTwoTri : RTStruct := ⟨[⟨"a", 1⟩], [⟨1, [triA, triB]⟩]⟩

/-- An RTSTRUCT whose ROI `"a"` carries a single contour with empty
`ContourData`. -/
def rtEmptyContour : RTStruct := ⟨[⟨"a", 1⟩], [⟨1, [⟨[]⟩]⟩]⟩

/-- A two-point (degenerate) contour on the plane z = 0. -/
def ct2pt : Contour := ⟨[⟨0, 0, 0⟩, ⟨2, 1, 0⟩]⟩

/-- A slice with anisotropic `PixelSpacing`: row spacing 1 mm, column
spacing 2 mm. -/
def sliceAniso : ImageSlice := ⟨⟨0, 0, 0⟩, (1, 2), 4, 4⟩

/-- A contour point at x = 3 mm, y = 5 mm. -/
def pointAniso : Point3 := ⟨3, 5, 0⟩

/-! Helper lemmas. -/

lemma argminAbs_lt_length (z : ℚ) : ∀ (l : List ℚ), l ≠ [] → argminAbs z l < l.length := by
  intro l
  induction l with
  | nil => intro h; exact absurd rfl h
  | cons p tail ih =>
    intro _
    cases tail with
    | nil => simp [argminAbs]
    | cons q rest =>
      rw [argminAbs]
      split
      · simp
      · have h := ih (by simp)
        simpa [Nat.succ_lt_succ_iff] using h

lemma argminAbs_min (z : ℚ) :
    ∀ (l : List ℚ) (k : Nat), k < l.length →
      |l.getD (argminAbs z l) 0 - z| ≤ |l.getD k 0 - z| := by
  intro l
  induction l with
  | nil => intro k hk; simp at hk
  | cons p tail ih =>
    intro k hk
    cases tail with
    | nil =>
      simp only [List.length_cons, List.length_nil] at hk
      have hk0 : k = 0 := by omega
      subst hk0
      simp [argminAbs]
    | cons q rest =>
      rw [argminAbs]
      by_cases h : |p - z| ≤ |(q :: rest).getD (argminAbs z (q :: rest)) 0 - z|
      · rw [if_pos h]
        cases k with
        | zero => simp
        | succ k' =>
          have hk' : k' < (q :: rest).length := by simpa using hk
          have h2 := ih k' hk'
          simpa using le_trans h h2
      · rw [if_neg h]
        have hlt := lt_of_not_le h
        cases k with
        | zero => simpa using le_of_lt hlt
        | succ k' =>
          have hk' : k' < (q :: rest).length := by simpa using hk
          simpa using ih k' hk'

lemma zPositions_sorted (slices : List ImageSlice) :
    List.Pairwise (fun a b : ℚ => a ≤ b) (zPositions slices) := by
  have h := List.sorted_insertionSort sliceLE slices
  unfold zPositions sortSlices
  exact List.Pairwise.map _ (fun a b hab => hab) h

lemma sortSlices_length (slices : List ImageSlice) :
    (sortSlices slices).length = slices.length :=
  List.length_insertionSort sliceLE slices

lemma addContour_eq_ok (s0 : ImageSlice) (zp : List ℚ) (m : Mask3)
    (contour : Contour) (p0 : Point3) (rest : List Point3)
    (h : contour.ContourData = p0 :: rest) :
    addContour s0 zp m contour =
      Except.ok fun i r c => m i r c || rasterCell s0 zp contour i r c := by
  obtain ⟨d⟩ := contour
  simp only [Contour.mk.injEq] at h
  subst h
  rfl

lemma foldlM_addContour_ok (s0 : ImageSlice) (zp : List ℚ) :
    ∀ (cs : List Contour) (m0 m : Mask3),
      cs.foldlM (addContour s0 zp) m0 = Except.ok m →
      ∀ i r c, m i r c = (m0 i r c || cs.any fun ct => rasterCell s0 zp ct i r c) := by
  intro cs
  induction cs with
  | nil =>
    intro m0 m h i r c
    simp only [List.foldlM_nil] at h
    cases h
    simp
  | cons ct cs ih =>
    intro m0 m h i r c
    rw [List.foldlM_cons] at h
    cases hc : addContour s0 zp m0 ct with
    | error e => rw [hc] at h; cases h
    | ok m1 =>
      rw [hc] at h
      have h' : cs.foldlM (addContour s0 zp) m1 = Except.ok m := h
      have hm := ih m1 m h' i r c
      cases hd : ct.ContourData with
      | nil =>
        rw [addContour, hd] at hc
        exact absurd hc (by simp)
      | cons p0 ps =>
        rw [addContour_eq_ok s0 zp m0 ct p0 ps hd] at hc
        cases hc
        rw [hm]
        simp [Bool.or_assoc]

lemma foldlM_addContour_error (s0 : ImageSlice) (zp : List ℚ) :
    ∀ (cs : List Contour) (m0 : Mask3) (e : PyError),
      cs.foldlM (addContour s0 zp) m0 = Except.error e → e = PyError.indexError := by
  intro cs
  induction cs with
  | nil => intro m0 e h; simp only [List.foldlM_nil] at h; cases h
  | cons ct cs ih =>
    intro m0 e h
    rw [List.foldlM_cons] at h
    cases hc : addContour s0 zp m0 ct with
    | error e' =>
      rw [hc] at h
      have he : e' = e := by
        have : (Except.error e' : Except PyError Mask3) = Except.error e := h
        cases this
        rfl
      subst he
      cases hd : ct.ContourData with
      | nil =>
        rw [addContour, hd] at hc
        cases hc
        rfl
      | cons p0 ps => rw [addContour_eq_ok s0 zp m0 ct p0 ps hd] at hc; cases hc
    | ok m1 =>
      rw [hc] at h
      exact ih m1 e h

lemma extract_ok_elim {rt : RTStruct} {slices : List ImageSlice} {name : String}
    {r : ExtractResult} (h : extract_structure_mask rt slices name = Except.ok r) :
    ∃ s0 s1 rest structure_index mask,
      sortSlices slices = s0 :: s1 :: rest ∧
      findStructureIndex rt name = some structure_index ∧
      buildMask rt structure_index s0 (zPositions slices) = Except.ok mask ∧
      r = ⟨mask, s0.PixelSpacing,
            |s1.ImagePositionPatient.z - s0.ImagePositionPatient.z|⟩ := by
  simp only [extract_structure_mask] at h
  cases hs : sortSlices slices with
  | nil => rw [hs] at h; cases h
  | cons s0 rest0 =>
    rw [hs] at h
    cases rest0 with
    | nil => cases h
    | cons s1 rest =>
      dsimp only at h
      cases hf : findStructureIndex rt name with
      | none => rw [hf] at h; cases h
      | some structure_index =>
        rw [hf] at h
        dsimp only at h
        cases hb : buildMask rt structure_index s0 (zPositions slices) with
        | error e =>
          rw [hb] at h
          simp only [Except.map] at h
          cases h
        | ok mask =>
          rw [hb] at h
          simp only [Except.map, Except.ok.injEq] at h
          exact ⟨s0, s1, rest, structure_index, mask, rfl, rfl, hb, h.symm⟩

lemma findStructureIndex_none_iff (rtstruct : RTStruct) (structure_name : String) :
    findStructureIndex rtstruct structure_name = none ↔
      ∀ roi ∈ rtstruct.StructureSetROISequence,
        strLower roi.ROIName ≠ strLower structure_name := by
  unfold findStructureIndex
  cases hfind : rtstruct.StructureSetROISequence.find?
      (fun roi => strLower roi.ROIName == strLower structure_name) with
  | none =>
    simp only [Option.map_none']
    constructor
    · intro _ roi hmem heq
      have hp := List.find?_eq_none.mp hfind roi hmem
      simp only [beq_iff_eq] at hp
      exact hp heq
    · intro _; trivial
  | some roi =>
    simp only [Option.map_some']
    constructor
    · intro habs; cases habs
    · intro hall
      exfalso
      have hmem := List.mem_of_find?_eq_some hfind
      have hp := List.find?_some hfind
      simp only [beq_iff_eq] at hp
      exact hall roi hmem hp

lemma extract_notFound_iff (rtstruct : RTStruct) (slices : List ImageSlice)
    (structure_name : String) (h2 : 2 ≤ slices.length) :
    extract_structure_mask rtstruct slices structure_name
        = Except.error (PyError.structureNotFound structure_name) ↔
      findStructureIndex rtstruct structure_name = none := by
  have hlen : 2 ≤ (sortSlices slices).length := by
    rw [sortSlices_length]; exact h2
  cases hs : sortSlices slices with
  | nil => rw [hs] at hlen; simp at hlen
  | cons s0 rest0 =>
    cases rest0 with
    | nil => rw [hs] at hlen; simp at hlen
    | cons s1 rest =>
      simp only [extract_structure_mask]
      rw [hs]
      dsimp only
      cases hf : findStructureIndex rtstruct structure_name with
      | none => simp
      | some structure_index =>
        dsimp only
        constructor
        · intro habs
          exfalso
          cases hb : buildMask rtstruct structure_index s0 (zPositions slices) with
          | error e =>
            have he := foldlM_addContour_error s0 (zPositions slices) _ _ e hb
            rw [hb] at habs
            simp only [Except.map] at habs
            cases habs
            cases he
          | ok mask =>
            rw [hb] at habs
            simp only [Except.map] at habs
            cases habs
        · intro habs; cases habs


lemma crossesRay_symm (q a b : ℚ × ℚ) : crossesRay q a b = crossesRay q b a := by
  unfold crossesRay
  by_cases hy : a.2 = b.2
  · rw [hy]
    simp
  · have hab : b.2 - a.2 ≠ 0 := sub_ne_zero.mpr (Ne.symm hy)
    have hba : a.2 - b.2 ≠ 0 := sub_ne_zero.mpr hy
    have hx : (b.1 - a.1) * (q.2 - a.2) / (b.2 - a.2) + a.1
        = (a.1 - b.1) * (q.2 - b.2) / (a.2 - b.2) + b.1 := by
      field_simp
      ring
    rw [hx]
    have hcomm : ∀ (x y : Bool), (x != y) = (y != x) := by decide
    rw [hcomm]

lemma contains_point_degenerate :
    ∀ (poly : List (ℚ × ℚ)), poly.length ≤ 2 → ∀ q, contains_point poly q = false := by
  intro poly h q
  match poly with
  | [] => rfl
  | [a] =>
    simp [contains_point, polygonEdges, List.rotate, crossesRay]
  | [a, b] =>
    have hsymm := crossesRay_symm q a b
    simp only [contains_point, polygonEdges, List.rotate]
    norm_num
    simp only [List.zip_cons_cons, List.zip_nil_right, List.countP_cons, List.countP_nil]
    rw [hsymm]
    cases hcr : crossesRay q b a <;> simp
  | a :: b :: c :: t =>
    exfalso
    simp at h

lemma sum_map_add_const {α : Type} (l : List α) (f : α → ℚ) (c : ℚ) :
    (l.map fun v => f v + c).sum = (l.map f).sum + l.length * c := by
  induction l with
  | nil => simp
  | cons v t ih =>
    simp only [List.map_cons, List.sum_cons, ih, List.length_cons]
    push_cast
    ring

lemma mean_shift_zero {α : Type} (l : List α) (f : α → ℚ)
    (hn : (l.length : ℚ) ≠ 0) :
    ((l.map fun v => f v + -((l.map f).sum / l.length)).sum) / l.length = 0 := by
  rw [sum_map_add_const]
  rw [mul_neg, mul_div_cancel₀ _ hn]
  simp

/-! Claim theorems. -/

/-- C1: for every structure set and target name, `extract_structure_mask`
raises the structure-not-found error exactly when no ROI name equals the
target under case-insensitive comparison; in particular a name drawn from
`get_structure_names` never triggers that error.  (Stated for slice folders
with at least two slices, on which the pipeline reaches the name lookup at
all; with fewer slices it raises an `IndexError` first, cf. C6.) -/
theorem C1_structure_resolution (rtstruct : RTStruct) (slices : List ImageSlice)
    (structure_name : String) (h2 : 2 ≤ slices.length) :
    (extract_structure_mask rtstruct slices structure_name
        = Except.error (PyError.structureNotFound structure_name) ↔
      ∀ roi ∈ rtstruct.StructureSetROISequence,
        strLower roi.ROIName ≠ strLower structure_name) ∧
    (structure_name ∈ get_structure_names rtstruct →
      extract_structure_mask rtstruct slices structure_name
        ≠ Except.error (PyError.structureNotFound structure_name)) := by
  have hiff := (extract_notFound_iff rtstruct slices structure_name h2).trans
    (findStructureIndex_none_iff rtstruct structure_name)
  refine ⟨hiff, ?_⟩
  intro hname habs
  obtain ⟨roi, hmem, hroi⟩ := List.mem_map.mp hname
  exact (hiff.mp habs) roi hmem (by rw [hroi])

/-- C1 witness: on a concrete two-slice stack and a structure set containing
only "BolusECT", the name "PTV" always raises, and the listed name
"BolusECT" never does. -/
theorem C1_witness :
    extract_structure_mask rtPlain [sW0, sW10] "PTV"
        = Except.error (PyError.structureNotFound "PTV") ∧
    extract_structure_mask rtPlain [sW0, sW10] "BolusECT"
        ≠ Except.error (PyError.structureNotFound "BolusECT") := by
  constructor
  · exact (C1_structure_resolution rtPlain [sW0, sW10] "PTV" (by decide)).1.mpr
      (by decide)
  · exact (C1_structure_resolution rtPlain [sW0, sW10] "BolusECT" (by decide)).2
      (by decide)

/-- C3: a contour is assigned to the slice index minimizing the absolute
distance between the slice position and the contour's through-plane
coordinate (first such index on ties, as `np.argmin`), the index is always in
range, and `addContour` succeeds on any non-empty contour no matter how large
the minimal distance is. -/
theorem C3_nearest_slice_assignment (z_positions : List ℚ) (z : ℚ)
    (h : z_positions ≠ []) :
    (argminAbs z z_positions < z_positions.length ∧
      ∀ k < z_positions.length,
        |z_positions.getD (argminAbs z z_positions) 0 - z|
          ≤ |z_positions.getD k 0 - z|) ∧
    (∀ (s0 : ImageSlice) (mask : Mask3) (contour : Contour) (p0 : Point3)
        (ps : List Point3), contour.ContourData = p0 :: ps →
      addContour s0 z_positions mask contour =
        Except.ok fun i r c =>
          mask i r c || rasterCell s0 z_positions contour i r c) :=
  ⟨⟨argminAbs_lt_length z z_positions h, fun k hk => argminAbs_min z z_positions k hk⟩,
    fun s0 mask contour p0 ps hd => addContour_eq_ok s0 z_positions mask contour p0 ps hd⟩

/-- C3 witness: with slice positions 0 and 10 and a contour at z = 100 —
far beyond every slice — the assignment is still in range and minimal. -/
theorem C3_witness :
    argminAbs 100 [(0 : ℚ), 10] < [(0 : ℚ), 10].length ∧
    ∀ k < [(0 : ℚ), 10].length,
      |[(0 : ℚ), 10].getD (argminAbs 100 [(0 : ℚ), 10]) 0 - 100|
        ≤ |[(0 : ℚ), 10].getD k 0 - 100| :=
  (C3_nearest_slice_assignment [(0 : ℚ), 10] 100 (by decide)).1

/-- C4: the assembled volumetric mask is the pointwise logical OR of the
individually rasterized contour masks of the resolved ROI, and a cell set by
an earlier contour is never cleared by a later one (the loop is monotone in
the accumulated mask). -/
theorem C4_union_semantics (s0 : ImageSlice) (z_positions : List ℚ) :
    (∀ (rtstruct : RTStruct) (structure_index : Nat) (mask : Mask3),
      buildMask rtstruct structure_index s0 z_positions = Except.ok mask →
      ∀ i r c, mask i r c
        = ((contoursFor rtstruct structure_index).any
            fun ct => rasterCell s0 z_positions ct i r c)) ∧
    (∀ (cs : List Contour) (m0 mask : Mask3),
      cs.foldlM (addContour s0 z_positions) m0 = Except.ok mask →
      ∀ i r c, m0 i r c = true → mask i r c = true) := by
  constructor
  · intro rtstruct structure_index mask h i r c
    have := foldlM_addContour_ok s0 z_positions _ _ mask h i r c
    simpa using this
  · intro cs m0 mask h i r c hset
    have := foldlM_addContour_ok s0 z_positions cs m0 mask h i r c
    rw [this, hset]
    simp

/-- C4 witness: two overlapping triangles on the same slice; the assembled
mask is the OR of their rasterizations at every cell. -/
theorem C4_witness :
    ∃ mask, buildMask rtTwoTri 1 sW0 (zPositions [sW0, sW10]) = Except.ok mask ∧
      ∀ i r c, mask i r c
        = ((contoursFor rtTwoTri 1).any
            fun ct => rasterCell sW0 (zPositions [sW0, sW10]) ct i r c) := by
  refine ⟨_, rfl, ?_⟩
  exact (C4_union_semantics sW0 (zPositions [sW0, sW10])).1 rtTwoTri 1 _ rfl

/-- C6: with fewer than two image slices, both entry points fail (with the
`IndexError` that the spec names `InsufficientDataError`) while deriving the
slice geometry. -/
theorem C6_insufficient_slices (rtstruct : RTStruct) (slices : List ImageSlice)
    (structure_name : String) (h : slices.length < 2) :
    extract_structure_mask rtstruct slices structure_name
        = Except.error PyError.indexError ∧
    extract_structure_mask_gui rtstruct slices structure_name
        = Except.error PyError.indexError := by
  have hlen : (sortSlices slices).length < 2 := by
    rw [sortSlices_length]; exact h
  cases hs : sortSlices slices with
  | nil =>
    constructor <;>
      · simp only [extract_structure_mask, extract_structure_mask_gui]
        rw [hs]
  | cons s0 rest0 =>
    cases rest0 with
    | nil =>
      constructor <;>
        · simp only [extract_structure_mask, extract_structure_mask_gui]
          rw [hs]
    | cons s1 rest =>
      exfalso
      rw [hs] at hlen
      simp only [List.length_cons] at hlen
      omega

/-- C6 witness: the empty slice folder. -/
theorem C6_witness :
    extract_structure_mask rtPlain [] "BolusECT" = Except.error PyError.indexError ∧
    extract_structure_mask_gui rtPlain [] "BolusECT" = Except.error PyError.indexError :=
  C6_insufficient_slices rtPlain [] "BolusECT" (by decide)

/-- C7 counterexample: two slices at the same through-plane position 0 are a
legal input (duplicates are "not expected but not rejected"), extraction
succeeds, and the derived inter-slice spacing is 0 — not a positive scalar,
refuting the claim as stated. -/
theorem C7_counterexample :
    ∃ r, extract_structure_mask rtPlain [sW0, sW0] "BolusECT" = Except.ok r ∧
      r.slice_thickness = 0 ∧ ¬(0 < r.slice_thickness) := by
  refine ⟨_, rfl, ?_, ?_⟩
  · show |(0 : ℚ) - 0| = 0
    norm_num
  · show ¬(0 < |(0 : ℚ) - 0|)
    norm_num

/-- C7 (amended): for every successful extraction the sorted position array
is non-decreasing and the derived inter-slice spacing is nonnegative; it is
positive whenever the first two sorted positions are distinct (with
coincident first two positions it is 0). -/
theorem C7_sorted_and_spacing (slices : List ImageSlice) (rtstruct : RTStruct)
    (structure_name : String) (r : ExtractResult)
    (h : extract_structure_mask rtstruct slices structure_name = Except.ok r) :
    List.Pairwise (fun a b : ℚ => a ≤ b) (zPositions slices) ∧
    0 ≤ r.slice_thickness ∧
    ((zPositions slices).getD 0 0 ≠ (zPositions slices).getD 1 0 →
      0 < r.slice_thickness) := by
  obtain ⟨s0, s1, rest, structure_index, mask, hs, hf, hb, hr⟩ := extract_ok_elim h
  refine ⟨zPositions_sorted slices, ?_, ?_⟩
  · rw [hr]
    exact abs_nonneg _
  · intro hne
    rw [hr]
    dsimp only
    have hz : s0.ImagePositionPatient.z ≠ s1.ImagePositionPatient.z := by
      unfold zPositions at hne
      rw [hs] at hne
      simpa using hne
    exact abs_pos.mpr (sub_ne_zero.mpr (Ne.symm hz))

/-- C7 witness: slices supplied out of order at positions 10 and 0 — the
sorted first two positions differ, so the derived spacing is positive. -/
theorem C7_witness :
    ∃ r, extract_structure_mask rtPlain [sW10, sW0] "BolusECT" = Except.ok r ∧
      0 < r.slice_thickness := by
  refine ⟨_, rfl, ?_⟩
  exact (C7_sorted_and_spacing [sW10, sW0] rtPlain "BolusECT" _ rfl).2.2 (by decide)

/-- C8: centroid normalization translates every vertex by the negation of
the centroid, leaves faces and vertex normals untouched (no addition,
removal or reordering), keeps the vertex count, and recenters the mesh so
that the centroid of the result is the origin. -/
theorem C8_centroid_normalization (mesh : Mesh) (h : mesh.vertices ≠ []) :
    (normalizeMesh mesh).vertices
        = mesh.vertices.map (fun v => Point3.sub v (centroid mesh)) ∧
    (normalizeMesh mesh).faces = mesh.faces ∧
    (normalizeMesh mesh).vertex_normals = mesh.vertex_normals ∧
    (normalizeMesh mesh).vertices.length = mesh.vertices.length ∧
    centroid (normalizeMesh mesh) = ⟨0, 0, 0⟩ := by
  have hn : ((mesh.vertices.length : ℚ)) ≠ 0 :=
    Nat.cast_ne_zero.mpr (fun h0 => h (List.length_eq_zero.mp h0))
  refine ⟨?_, rfl, rfl, by simp [normalizeMesh, apply_translation], ?_⟩
  · unfold normalizeMesh apply_translation
    dsimp only
    congr 1
    funext v
    simp [Point3.add, Point3.neg, Point3.sub, sub_eq_add_neg]
  · unfold normalizeMesh apply_translation centroid
    dsimp only
    rw [List.map_map, List.map_map, List.map_map]
    simp only [Function.comp, Point3.add, Point3.neg, List.length_map]
    congr 1
    · exact mean_shift_zero mesh.vertices Point3.x hn
    · exact mean_shift_zero mesh.vertices Point3.y hn
    · exact mean_shift_zero mesh.vertices Point3.z hn

/-- C8 witness: a concrete two-vertex mesh. -/
theorem C8_witness :
    (normalizeMesh ⟨[⟨1, 2, 3⟩, ⟨3, 4, 5⟩], [(0, 1, 2)], [⟨0, 0, 1⟩]⟩).faces
        = [(0, 1, 2)] ∧
    (normalizeMesh ⟨[⟨1, 2, 3⟩, ⟨3, 4, 5⟩], [(0, 1, 2)], [⟨0, 0, 1⟩]⟩).vertex_normals
        = [⟨0, 0, 1⟩] ∧
    centroid (normalizeMesh ⟨[⟨1, 2, 3⟩, ⟨3, 4, 5⟩], [(0, 1, 2)], [⟨0, 0, 1⟩]⟩)
        = ⟨0, 0, 0⟩ := by
  have h := C8_centroid_normalization ⟨[⟨1, 2, 3⟩, ⟨3, 4, 5⟩], [(0, 1, 2)], [⟨0, 0, 1⟩]⟩
    (by decide)
  exact ⟨h.2.1, h.2.2.1, h.2.2.2.2⟩

/-- C9 counterexample: a contour with zero points has fewer than 3 points,
yet extraction does not produce an empty-interior mask — it raises an
`IndexError` at `pts[0, 2]` before the point-in-polygon test is reached,
refuting the "no crash" part of the claim for 0-point contours. -/
theorem C9_counterexample :
    (⟨[]⟩ : Contour).ContourData.length < 3 ∧
    extract_structure_mask rtEmptyContour [sW0, sW10] "a"
      = Except.error PyError.indexError := by
  constructor
  · decide
  · rfl

/-- C9 (amended): the point-in-polygon test itself classifies every query
point as outside for any polygon with fewer than 3 vertices, so a contour
with 1 or 2 points rasterizes to an all-false mask and contributes nothing,
without error; only the 0-point contour raises (when its through-plane
coordinate `pts[0, 2]` is read, before rasterization). -/
theorem C9_degenerate_contour (s0 : ImageSlice) (contour : Contour)
    (hlen : contour.ContourData.length ≤ 2) :
    (∀ r c : Nat, contourMask s0 contour r c = false) ∧
    (∀ (z_positions : List ℚ) (mask : Mask3) (p0 : Point3) (ps : List Point3),
      contour.ContourData = p0 :: ps →
      ∃ mask2, addContour s0 z_positions mask contour = Except.ok mask2 ∧
        ∀ i r c, mask2 i r c = mask i r c) := by
  have hpoly : ∀ r c : Nat,
      contains_point (contourPolygon s0 contour) ((c : ℚ), (r : ℚ)) = false := by
    intro r c
    apply contains_point_degenerate
    simpa [contourPolygon] using hlen
  have hcm : ∀ r c : Nat, contourMask s0 contour r c = false := by
    intro r c
    unfold contourMask
    rw [hpoly]
    simp
  refine ⟨hcm, ?_⟩
  intro z_positions mask p0 ps hd
  refine ⟨_, addContour_eq_ok s0 z_positions mask contour p0 ps hd, ?_⟩
  intro i r c
  simp [rasterCell, hd, hcm]

/-- C9 witness: a two-point contour on a concrete slice stack contributes
nothing to the mask and raises no error. -/
theorem C9_witness :
    ∃ mask2, addContour sW0 (zPositions [sW0, sW10]) (fun _ _ _ => false) ct2pt
        = Except.ok mask2 ∧
      ∀ i r c, mask2 i r c = (fun _ _ _ => false : Mask3) i r c :=
  (C9_degenerate_contour sW0 ct2pt (by decide)).2
    (zPositions [sW0, sW10]) (fun _ _ _ => false) ⟨0, 0, 0⟩ [⟨2, 1, 0⟩] rfl

/-- C5: a volumetric mask with no boundary crossing the 0.5 isovalue — the
all-zero and the all-one grid — makes `mask_to_stl` fail with the
level-out-of-range error (the spec's `EmptyVolumeError`) instead of silently
returning an empty mesh, for every choice of the external surface-geometry
routine, grid shape and spacing. -/
theorem C5_degenerate_volume_raises
    (marching_cubes_surface : Mask3 → ℚ × ℚ × ℚ → Mesh)
    (shape : Nat × Nat × Nat) (pixel_spacing : ℚ × ℚ) (slice_thickness : ℚ) :
    mask_to_stl marching_cubes_surface shape (fun _ _ _ => false)
        pixel_spacing slice_thickness = Except.error PyError.valueError ∧
    mask_to_stl marching_cubes_surface shape (fun _ _ _ => true)
        pixel_spacing slice_thickness = Except.error PyError.valueError := by
  constructor <;> simp [mask_to_stl, levelInRange, List.any_map, Function.comp]

/-- C10: the pipeline duplicated across the two entry-point files is
behaviorally equivalent — `extract_structure_mask` of `src/stl.py` and of
`src/stlComInterface.py` agree on every input (same result triple or same
error), and the two `mask_to_stl` variants produce the same mesh from the
same mask for every external marching-cubes geometry. -/
theorem C10_duplicate_pipelines_equivalent :
    (∀ (rtstruct : RTStruct) (slices : List ImageSlice) (structure_name : String),
      extract_structure_mask rtstruct slices structure_name
        = extract_structure_mask_gui rtstruct slices structure_name) ∧
    (∀ (marching_cubes_surface : Mask3 → ℚ × ℚ × ℚ → Mesh)
        (shape : Nat × Nat × Nat) (mask : Mask3) (pixel_spacing : ℚ × ℚ)
        (slice_thickness : ℚ),
      mask_to_stl marching_cubes_surface shape mask pixel_spacing slice_thickness
        = mask_to_stl_gui marching_cubes_surface shape mask pixel_spacing
            slice_thickness) := by
  constructor
  · intro rtstruct slices structure_name
    simp only [extract_structure_mask, extract_structure_mask_gui]
    cases hs : sortSlices slices with
    | nil => rfl
    | cons s0 rest0 =>
      cases rest0 with
      | nil => rfl
      | cons s1 rest =>
        dsimp only
        have hz : (zPositions slices).getD 1 0 - (zPositions slices).getD 0 0
            = s1.ImagePositionPatient.z - s0.ImagePositionPatient.z := by
          unfold zPositions
          rw [hs]
          simp
        simp only [hz]
  · intro marching_cubes_surface shape mask pixel_spacing slice_thickness
    rfl

/-- C2: the in-plane coordinate transform of `extract_structure_mask` does
NOT match the claim.  On a slice with `PixelSpacing = [1, 2]` (row spacing
1 mm, column spacing 2 mm — the DICOM pair is row spacing first, which is
also how `mask_to_stl` in the same files consumes it) and a contour point at
x = 3 mm, y = 5 mm from the origin, the source divides x by
`pixel_spacing[0]` giving column coordinate 3, while the claimed transform
`col = (x - origin_x) / spacing_x` with the column spacing gives 3/2; rows
are swapped likewise.  The two spacing components are exchanged. -/
theorem C2_pixel_spacing_swapped :
    col_coords sliceAniso pointAniso = 3 ∧
    row_coords sliceAniso pointAniso = 5 / 2 ∧
    spec_col_coords sliceAniso pointAniso = 3 / 2 ∧
    spec_row_coords sliceAniso pointAniso = 5 ∧
    col_coords sliceAniso pointAniso ≠ spec_col_coords sliceAniso pointAniso ∧
    row_coords sliceAniso pointAniso ≠ spec_row_coords sliceAniso pointAniso := by
  norm_num [col_coords, row_coords, spec_col_coords, spec_row_coords,
    sliceAniso, pointAniso]

end SmartBolus
